import Mathlib

/-!
Verification development for the `application` lifecycle-orchestrator
repository (Go).  The Go sources under `src/` are shallowly embedded:
pure functions become Lean functions, the stateful run sequence of
`Application.Run` becomes an explicit function from an oracle of external
outcomes (logger construction, configuration loading, the external
execution engine, the setup callback) to an event trace, a final
application value, the health/readiness registry and the process exit
code.  External collaborators (go-services, services-healthcheck,
server-fiber, config) are embedded only at their interface contract.
-/

/-- Go errors are modelled by their message; `none` is the nil error. -/
abbrev GoError := String

/-- The single named coordinator state used by the code: `appState` is a Go
string type whose zero value `""` is the not-running state. -/
def stateRunning : String := "running"

/-- `ErrAppNotRunningYet` from the source: the error returned by the
self-readiness check while the application is not running. -/
def ErrAppNotRunningYet : GoError := "app is not running yet"

/-- `appChecker.Check`: reads the coordinator state (in the source, under
`stateM`); returns `ErrAppNotRunningYet` when the state is not
`stateRunning`, and nil (`none`) otherwise. -/
def appChecker.Check (state : String) : Option GoError :=
  if state ≠ stateRunning then some ErrAppNotRunningYet else none

/-- A reference to a registered check function.  The self-readiness check
is the closure `&appChecker{app}`; a service's `IsHealthy`/`IsReady`
methods are opaque function values, identified by a numeric id. -/
inductive CheckerRef where
  | app : CheckerRef
  | fn : Nat → CheckerRef
deriving DecidableEq

/-- A service handed to the execution engine: a stable name plus the
optional structural capabilities `HealthChecker` (`IsHealthy`) and
`ReadyChecker` (`IsReady`), modelled as optional opaque check functions.
A service may satisfy zero, one, or both. -/
structure Service where
  name : String
  IsHealthy : Option Nat
  IsReady : Option Nat
deriving DecidableEq

/-- The health/readiness registry of services-healthcheck, embedded at the
interface contract of §4.4 of the design: two independent lists of named
checks, one per kind.  Registration appends the named check. -/
structure Registry where
  health : List (String × CheckerRef)
  ready : List (String × CheckerRef)
deriving DecidableEq

/-- `AddHealthCheck` of the registry: registers a named health-kind check. -/
def Healthcheck.AddHealthCheck (reg : Registry) (name : String) (c : CheckerRef) : Registry :=
  { reg with health := reg.health ++ [(name, c)] }

/-- `AddReadyCheck` of the registry: registers a named ready-kind check. -/
def Healthcheck.AddReadyCheck (reg : Registry) (name : String) (c : CheckerRef) : Registry :=
  { reg with ready := reg.ready ++ [(name, c)] }

/-- `healthcheckObserver.addIfHealthCheck`: if the service structurally
satisfies `HealthChecker`, register its check under the service's name;
otherwise do nothing. -/
def addIfHealthCheck (reg : Registry) (svc : Service) : Registry :=
  match svc.IsHealthy with
  | none => reg
  | some c => Healthcheck.AddHealthCheck reg svc.name (CheckerRef.fn c)

/-- `healthcheckObserver.addIfReadyCheck`: if the service structurally
satisfies `ReadyChecker`, register its check under the service's name;
otherwise do nothing. -/
def addIfReadyCheck (reg : Registry) (svc : Service) : Registry :=
  match svc.IsReady with
  | none => reg
  | some c => Healthcheck.AddReadyCheck reg svc.name (CheckerRef.fn c)

/-- `healthcheckObserver.BeforeStart`: first `addIfHealthCheck`, then
`addIfReadyCheck`. -/
def healthcheckObserver.BeforeStart (reg : Registry) (svc : Service) : Registry :=
  addIfReadyCheck (addIfHealthCheck reg svc) svc

/-- The lifecycle events of the observer protocol.  `Configurable`
arguments and OS signals are opaque ids. -/
inductive LifecycleEvent where
  | beforeStart : Service → LifecycleEvent
  | afterStart : Service → Option GoError → LifecycleEvent
  | beforeStop : Service → LifecycleEvent
  | afterStop : Service → Option GoError → LifecycleEvent
  | beforeLoad : Nat → LifecycleEvent
  | afterLoad : Nat → Option GoError → LifecycleEvent
  | signalReceived : Nat → LifecycleEvent
deriving DecidableEq

/-- The dispatch of `healthcheckObserver`: one case per observer method.
The non-`BeforeStart` methods of the source have empty bodies, so they
leave the registry unchanged. -/
def healthcheckObserver.handle (reg : Registry) (ev : LifecycleEvent) : Registry :=
  match ev with
  | .beforeStart svc => healthcheckObserver.BeforeStart reg svc
  | _ => reg

/-- Firing `BeforeStart` through the observer for each service the engine
starts, in order. -/
def observerRunList (reg : Registry) : List Service → Registry
  | [] => reg
  | s :: rest => observerRunList (healthcheckObserver.BeforeStart reg s) rest

/-- The merged configuration manager published to `app.ConfigManager`:
a plain engine and a secret engine, identified by their file paths. -/
structure ConfigManager where
  plain : String
  secret : String
deriving DecidableEq

/-- `env.GetStringDefault`: the value of an environment variable, or the
default when it is unset. -/
def getStringDefault (v : Option String) (d : String) : String := v.getD d

/-- The `Application` struct.  `context`, zap options and shutdown
handlers are opaque ids; `state` is the mutex-guarded coordinator state
(zero value `""` = not running). -/
structure Application where
  context : Nat
  state : String
  version : String
  build : String
  buildDate : String
  loggerZapOptions : List Nat
  disableSystemServer : Bool
  environment : String
  ConfigManager : Option ConfigManager
  shutdownHandler : List Nat
deriving DecidableEq

/-- `defaultApplication`: background context, package-level build
metadata (`Version = "dev"`, `Build = "local"`, `BuildDate =
"unspecified"`), environment from `ENV` (default `"production"`), an
empty shutdown-handler list, and zero values for the remaining fields
(so the system server is enabled and the state is not running). -/
def defaultApplication : Application :=
  { context := 0
    state := ""
    version := "dev"
    build := "local"
    buildDate := "unspecified"
    loggerZapOptions := []
    disableSystemServer := false
    environment := "production"
    ConfigManager := none
    shutdownHandler := [] }

def Application.WithContext (app : Application) (ctx : Nat) : Application :=
  { app with context := ctx }

def Application.WithVersion (app : Application) (version build buildDate : String) : Application :=
  { app with version := version, build := build, buildDate := buildDate }

def Application.WithLoggerZapOptions (app : Application) (options : List Nat) : Application :=
  { app with loggerZapOptions := options }

def Application.WithEnvironment (app : Application) (environment : String) : Application :=
  { app with environment := environment }

def Application.WithDisableSystemServer (app : Application) (disable : Bool) : Application :=
  { app with disableSystemServer := disable }

/-- `Application.Shutdown`: appends one handler to the shutdown-handler
list (under `shutdownHandlerMutex` in the source) and returns the
application for chaining. -/
def Application.Shutdown (app : Application) (handler : Nat) : Application :=
  { app with shutdownHandler := app.shutdownHandler ++ [handler] }

/-- The outcome an external step of the run sequence can have: return
nil, return an error, or raise a panic. -/
inductive StepOutcome where
  | ok : StepOutcome
  | err : StepOutcome
  | panicked : StepOutcome
deriving DecidableEq

/-- The oracle of external outcomes one call to `Application.Run`
observes: logger construction and logctx initialisation (which can only
fail, not panic, before the recovery defer is installed), the execution
engine's `Run` on the system server, the two configuration-load phases,
the user setup callback and the services it returns, the engine's `Run`
on the user service set (with how many of those services received
`BeforeStart` when that call does not return nil), whether the final
`Wait` panics, and the `CONFIG`/`SECRETS` environment variables. -/
structure RunEnv where
  loggerBuildOk : Bool
  logctxInitOk : Bool
  systemServerRun : StepOutcome
  plainLoad : StepOutcome
  secretLoad : StepOutcome
  setup : StepOutcome
  setupServices : List Service
  servicesRun : StepOutcome
  startedCount : Nat
  waitPanics : Bool
  configVar : Option String
  secretsVar : Option String
deriving DecidableEq

/-- The externally visible events of one run, in order. -/
inductive RunEvent where
  | loggerBuild : Bool → RunEvent
  | logctxInit : Bool → RunEvent
  | systemServerRun : Bool → RunEvent
  | plainLoad : Bool → RunEvent
  | secretLoad : Bool → RunEvent
  | publishConfig : RunEvent
  | setupCall : Bool → RunEvent
  | servicesRun : Bool → RunEvent
  | stateSet : String → RunEvent
  | waitCall : RunEvent
  | panicRecovered : RunEvent
  | finishCall : RunEvent
  | loggerSync : RunEvent
deriving DecidableEq

/-- How the closure forming the body of `Application.Run` terminates:
`return err` with a non-nil error, `return nil`, or a panic stopped by
the deferred `recover`. -/
inductive BodyExit where
  | retOk : BodyExit
  | retErr : BodyExit
  | panicked : BodyExit
deriving DecidableEq

/-- What the body of `Application.Run` has produced when it terminates:
its exit mode, the events so far, the application value (whose `state`
and `ConfigManager` fields the body mutates) and the registry. -/
structure BodyOut where
  exit : BodyExit
  evs : List RunEvent
  app : Application
  reg : Registry

/-- The system server built by `buildSystemServer`: a server-fiber
`FiberServer` named `"metrics/health/live"`.  server-fiber is an
external collaborator; per the design's registry scenarios (the
readiness aggregate holds exactly the self check plus one check per
ready-capable user service) and the repository's own readiness tests, it
contributes no health or ready check of its own, so it carries neither
capability here. -/
def systemServerService : Service :=
  { name := "metrics/health/live", IsHealthy := none, IsReady := none }

/-- The registry as `Application.Run` constructs it: a single ready-kind
check named `"app"` bound to the `appChecker` closure, and no
health-kind checks. -/
def initialRegistry : Registry :=
  { health := [], ready := [("app", CheckerRef.app)] }

/-- The configuration manager built from the two YAML engines, whose
file paths come from `CONFIG` (default `".config.yaml"`) and `SECRETS`
(default `".secrets.yaml"`). -/
def mkConfigManager (env : RunEnv) : ConfigManager :=
  { plain := getStringDefault env.configVar ".config.yaml"
    secret := getStringDefault env.secretsVar ".secrets.yaml" }

/-- `Runner.Wait(ctx)`: blocks until cancellation, then the body returns
nil. -/
def runWait (app : Application) (env : RunEnv) (evs : List RunEvent) (reg : Registry) : BodyOut :=
  match env.waitPanics with
  | true => { exit := .panicked, evs := evs, app := app, reg := reg }
  | false => { exit := .retOk, evs := evs ++ [RunEvent.waitCall], app := app, reg := reg }

/-- The tail of the body from the user-services step on: when the setup
callback returned no services the body returns nil immediately;
otherwise `Runner.Run` is invoked on the full service set (firing
`BeforeStart` per started service through the observer), an error is
fatal, and only a nil return is followed by the `state = stateRunning`
transition and `Runner.Wait`. -/
def runFromServices (app : Application) (env : RunEnv) (evs : List RunEvent) (reg : Registry) : BodyOut :=
  match env.setupServices with
  | [] => { exit := .retOk, evs := evs, app := app, reg := reg }
  | s0 :: rest =>
    match env.servicesRun with
    | .panicked =>
      { exit := .panicked, evs := evs
        app := app, reg := observerRunList reg ((s0 :: rest).take env.startedCount) }
    | .err =>
      { exit := .retErr, evs := evs ++ [RunEvent.servicesRun false]
        app := app, reg := observerRunList reg ((s0 :: rest).take env.startedCount) }
    | .ok =>
      runWait { app with state := stateRunning } env
        (evs ++ [RunEvent.servicesRun true, RunEvent.stateSet stateRunning])
        (observerRunList reg (s0 :: rest))

/-- The tail of the body from the setup callback on: a setup error is
fatal. -/
def runFromSetup (app : Application) (env : RunEnv) (evs : List RunEvent) (reg : Registry) : BodyOut :=
  match env.setup with
  | .panicked => { exit := .panicked, evs := evs, app := app, reg := reg }
  | .err => { exit := .retErr, evs := evs ++ [RunEvent.setupCall false], app := app, reg := reg }
  | .ok => runFromServices app env (evs ++ [RunEvent.setupCall true]) reg

/-- The tail of the body from the secret configuration phase on: a load
error is fatal; on nil the merged configuration manager is published to
`app.ConfigManager` before the setup callback is invoked. -/
def runFromSecret (app : Application) (env : RunEnv) (evs : List RunEvent) (reg : Registry) : BodyOut :=
  match env.secretLoad with
  | .panicked => { exit := .panicked, evs := evs, app := app, reg := reg }
  | .err => { exit := .retErr, evs := evs ++ [RunEvent.secretLoad false], app := app, reg := reg }
  | .ok =>
    runFromSetup { app with ConfigManager := some (mkConfigManager env) } env
      (evs ++ [RunEvent.secretLoad true, RunEvent.publishConfig]) reg

/-- The tail of the body from the plain configuration phase on: a load
error is fatal. -/
def runFromPlain (app : Application) (env : RunEnv) (evs : List RunEvent) (reg : Registry) : BodyOut :=
  match env.plainLoad with
  | .panicked => { exit := .panicked, evs := evs, app := app, reg := reg }
  | .err => { exit := .retErr, evs := evs ++ [RunEvent.plainLoad false], app := app, reg := reg }
  | .ok => runFromSecret app env (evs ++ [RunEvent.plainLoad true]) reg

/-- The body of `Application.Run` from the point the recovery defer is
installed: `runSystemServer` does nothing when the system server is
disabled and otherwise hands the system server to the execution engine
(firing `BeforeStart` through the observer) before any configuration is
loaded; a failure there is fatal. -/
def runBody (app : Application) (env : RunEnv) : BodyOut :=
  match app.disableSystemServer with
  | true => runFromPlain app env [] initialRegistry
  | false =>
    match env.systemServerRun with
    | .panicked =>
      { exit := .panicked, evs := []
        app := app, reg := healthcheckObserver.BeforeStart initialRegistry systemServerService }
    | .err =>
      { exit := .retErr, evs := [RunEvent.systemServerRun false]
        app := app, reg := healthcheckObserver.BeforeStart initialRegistry systemServerService }
    | .ok =>
      runFromPlain app env [RunEvent.systemServerRun true]
        (healthcheckObserver.BeforeStart initialRegistry systemServerService)

/-- The events the deferred function emits when the body terminates: a
panic is recovered and logged with its stack, then `Runner.Finish` is
invoked and the logger flushed, in every case. -/
def teardownEvents : BodyExit → List RunEvent
  | .panicked => [RunEvent.panicRecovered, RunEvent.finishCall, RunEvent.loggerSync]
  | _ => [RunEvent.finishCall, RunEvent.loggerSync]

/-- The error the closure of `Application.Run` hands to the final
`os.Exit(1)` check.  The closure's `error` result is unnamed, so when
the deferred `recover` stops a panic the closure returns the zero value
nil: only an ordinary `return err` yields exit code 1. -/
def exitOf : BodyExit → Nat
  | .retErr => 1
  | _ => 0

/-- The result of one call to `Application.Run`: the full event trace,
the application value afterwards, the registry, the process exit code
(1 when `os.Exit(1)` ran, 0 when `Run` returns normally), and the list
of registered shutdown handlers the run invoked. -/
structure RunResult where
  trace : List RunEvent
  finalApp : Application
  registry : Registry
  exitCode : Nat
  hooksInvoked : List Nat

/-- Completing the run once the body has terminated: the deferred
recover/Finish/Sync events are appended and the exit code computed.  The
run sequence and its deferred teardown never read `app.shutdownHandler`,
so no registered shutdown handler is ever invoked. -/
def runClose (b : BodyOut) : RunResult :=
  { trace := [RunEvent.loggerBuild true, RunEvent.logctxInit true] ++ b.evs ++ teardownEvents b.exit
    finalApp := b.app
    registry := b.reg
    exitCode := exitOf b.exit
    hooksInvoked := [] }

/-- `Application.Run`: build the logger (a failure is reported and
returned before anything else runs), initialise logctx, construct the
registry with the `"app"` self-readiness check, the observer and the
runner, install the recovery defer, and run the body; a non-nil error
from the closure ends the process via `os.Exit(1)`. -/
def Application.Run (app : Application) (env : RunEnv) : RunResult :=
  match env.loggerBuildOk with
  | false =>
    { trace := [RunEvent.loggerBuild false], finalApp := app
      registry := { health := [], ready := [] }, exitCode := 1, hooksInvoked := [] }
  | true =>
    match env.logctxInitOk with
    | false =>
      { trace := [RunEvent.loggerBuild true, RunEvent.logctxInit false], finalApp := app
        registry := { health := [], ready := [] }, exitCode := 1, hooksInvoked := [] }
    | true => runClose (runBody app env)

/-- The `state` values written during a trace, in order. -/
def stateSets (t : List RunEvent) : List String :=
  t.filterMap fun e =>
    match e with
    | RunEvent.stateSet s => some s
    | _ => none

/-- Scans a trace and checks that no state write happens before the
engine's `Run` over the user service set has returned nil. -/
def stateSetOnlyAfterRunOk : List RunEvent → Bool
  | [] => true
  | RunEvent.servicesRun true :: _ => true
  | RunEvent.stateSet _ :: _ => false
  | _ :: t => stateSetOnlyAfterRunOk t

/-- Scans a trace and checks that the first event satisfying `p` comes
before the first event satisfying `q` (trivially true when no event
satisfies `q`). -/
def firstPrecedes (p q : RunEvent → Bool) : List RunEvent → Bool
  | [] => true
  | e :: t => if q e then false else if p e then true else firstPrecedes p q t

def isSystemServerEvent : RunEvent → Bool
  | RunEvent.systemServerRun _ => true
  | _ => false

def isConfigOrUserStart : RunEvent → Bool
  | RunEvent.plainLoad _ => true
  | RunEvent.secretLoad _ => true
  | RunEvent.setupCall _ => true
  | RunEvent.servicesRun _ => true
  | _ => false

def isPlainLoadOk : RunEvent → Bool
  | RunEvent.plainLoad true => true
  | _ => false

def isSecretLoadEvent : RunEvent → Bool
  | RunEvent.secretLoad _ => true
  | _ => false

def isPublishEvent : RunEvent → Bool
  | RunEvent.publishConfig => true
  | _ => false

def isSetupEvent : RunEvent → Bool
  | RunEvent.setupCall _ => true
  | _ => false

def isSetupOk : RunEvent → Bool
  | RunEvent.setupCall true => true
  | _ => false

def isServicesRunEvent : RunEvent → Bool
  | RunEvent.servicesRun _ => true
  | _ => false

/-- The events signalling that a phase of the run returned a non-nil
error: exactly the fatal startup/run errors (logger construction, logctx
initialisation, system-server start, either configuration-load phase,
the setup callback, the user service start). -/
def isFailure : RunEvent → Bool
  | RunEvent.loggerBuild false => true
  | RunEvent.logctxInit false => true
  | RunEvent.systemServerRun false => true
  | RunEvent.plainLoad false => true
  | RunEvent.secretLoad false => true
  | RunEvent.setupCall false => true
  | RunEvent.servicesRun false => true
  | _ => false

/-- The events of the deferred teardown. -/
def isTeardown : RunEvent → Bool
  | RunEvent.panicRecovered => true
  | RunEvent.finishCall => true
  | RunEvent.loggerSync => true
  | _ => false

/-- Scans a trace and checks that once a phase has failed, only teardown
events follow (the run short-circuits to the deferred function). -/
def afterFailureOnlyTeardown : List RunEvent → Bool
  | [] => true
  | e :: t => if isFailure e then t.all isTeardown else afterFailureOnlyTeardown t

/-- All traces one call to `Application.Run` can produce, paired with
the exit code and with the `disableSystemServer` flag of the receiver. -/
def runShapes : List (List RunEvent × Nat × Bool) :=
  [ ([RunEvent.loggerBuild false], 1, false),
    ([RunEvent.loggerBuild false], 1, true),
    ([RunEvent.loggerBuild true, RunEvent.logctxInit false], 1, false),
    ([RunEvent.loggerBuild true, RunEvent.logctxInit false], 1, true),
    ([RunEvent.loggerBuild true, RunEvent.logctxInit true,
      RunEvent.panicRecovered, RunEvent.finishCall, RunEvent.loggerSync], 0, false),
    ([RunEvent.loggerBuild true, RunEvent.logctxInit true, RunEvent.systemServerRun false,
      RunEvent.finishCall, RunEvent.loggerSync], 1, false),
    ([RunEvent.loggerBuild true, RunEvent.logctxInit true, RunEvent.systemServerRun true,
      RunEvent.panicRecovered, RunEvent.finishCall, RunEvent.loggerSync], 0, false),
    ([RunEvent.loggerBuild true, RunEvent.logctxInit true, RunEvent.systemServerRun true,
      RunEvent.plainLoad false, RunEvent.finishCall, RunEvent.loggerSync], 1, false),
    ([RunEvent.loggerBuild true, RunEvent.logctxInit true, RunEvent.systemServerRun true,
      RunEvent.plainLoad true, RunEvent.panicRecovered, RunEvent.finishCall,
      RunEvent.loggerSync], 0, false),
    ([RunEvent.loggerBuild true, RunEvent.logctxInit true, RunEvent.systemServerRun true,
      RunEvent.plainLoad true, RunEvent.secretLoad false, RunEvent.finishCall,
      RunEvent.loggerSync], 1, false),
    ([RunEvent.loggerBuild true, RunEvent.logctxInit true, RunEvent.systemServerRun true,
      RunEvent.plainLoad true, RunEvent.secretLoad true, RunEvent.publishConfig,
      RunEvent.panicRecovered, RunEvent.finishCall, RunEvent.loggerSync], 0, false),
    ([RunEvent.loggerBuild true, RunEvent.logctxInit true, RunEvent.systemServerRun true,
      RunEvent.plainLoad true, RunEvent.secretLoad true, RunEvent.publishConfig,
      RunEvent.setupCall false, RunEvent.finishCall, RunEvent.loggerSync], 1, false),
    ([RunEvent.loggerBuild true, RunEvent.logctxInit true, RunEvent.systemServerRun true,
      RunEvent.plainLoad true, RunEvent.secretLoad true, RunEvent.publishConfig,
      RunEvent.setupCall true, RunEvent.finishCall, RunEvent.loggerSync], 0, false),
    ([RunEvent.loggerBuild true, RunEvent.logctxInit true, RunEvent.systemServerRun true,
      RunEvent.plainLoad true, RunEvent.secretLoad true, RunEvent.publishConfig,
      RunEvent.setupCall true, RunEvent.panicRecovered, RunEvent.finishCall,
      RunEvent.loggerSync], 0, false),
    ([RunEvent.loggerBuild true, RunEvent.logctxInit true, RunEvent.systemServerRun true,
      RunEvent.plainLoad true, RunEvent.secretLoad true, RunEvent.publishConfig,
      RunEvent.setupCall true, RunEvent.servicesRun false, RunEvent.finishCall,
      RunEvent.loggerSync], 1, false),
    ([RunEvent.loggerBuild true, RunEvent.logctxInit true, RunEvent.systemServerRun true,
      RunEvent.plainLoad true, RunEvent.secretLoad true, RunEvent.publishConfig,
      RunEvent.setupCall true, RunEvent.servicesRun true, RunEvent.stateSet stateRunning,
      RunEvent.panicRecovered, RunEvent.finishCall, RunEvent.loggerSync], 0, false),
    ([RunEvent.loggerBuild true, RunEvent.logctxInit true, RunEvent.systemServerRun true,
      RunEvent.plainLoad true, RunEvent.secretLoad true, RunEvent.publishConfig,
      RunEvent.setupCall true, RunEvent.servicesRun true, RunEvent.stateSet stateRunning,
      RunEvent.waitCall, RunEvent.finishCall, RunEvent.loggerSync], 0, false),
    ([RunEvent.loggerBuild true, RunEvent.logctxInit true,
      RunEvent.panicRecovered, RunEvent.finishCall, RunEvent.loggerSync], 0, true),
    ([RunEvent.loggerBuild true, RunEvent.logctxInit true,
      RunEvent.plainLoad false, RunEvent.finishCall, RunEvent.loggerSync], 1, true),
    ([RunEvent.loggerBuild true, RunEvent.logctxInit true,
      RunEvent.plainLoad true, RunEvent.panicRecovered, RunEvent.finishCall,
      RunEvent.loggerSync], 0, true),
    ([RunEvent.loggerBuild true, RunEvent.logctxInit true,
      RunEvent.plainLoad true, RunEvent.secretLoad false, RunEvent.finishCall,
      RunEvent.loggerSync], 1, true),
    ([RunEvent.loggerBuild true, RunEvent.logctxInit true,
      RunEvent.plainLoad true, RunEvent.secretLoad true, RunEvent.publishConfig,
      RunEvent.panicRecovered, RunEvent.finishCall, RunEvent.loggerSync], 0, true),
    ([RunEvent.loggerBuild true, RunEvent.logctxInit true,
      RunEvent.plainLoad true, RunEvent.secretLoad true, RunEvent.publishConfig,
      RunEvent.setupCall false, RunEvent.finishCall, RunEvent.loggerSync], 1, true),
    ([RunEvent.loggerBuild true, RunEvent.logctxInit true,
      RunEvent.plainLoad true, RunEvent.secretLoad true, RunEvent.publishConfig,
      RunEvent.setupCall true, RunEvent.finishCall, RunEvent.loggerSync], 0, true),
    ([RunEvent.loggerBuild true, RunEvent.logctxInit true,
      RunEvent.plainLoad true, RunEvent.secretLoad true, RunEvent.publishConfig,
      RunEvent.setupCall true, RunEvent.panicRecovered, RunEvent.finishCall,
      RunEvent.loggerSync], 0, true),
    ([RunEvent.loggerBuild true, RunEvent.logctxInit true,
      RunEvent.plainLoad true, RunEvent.secretLoad true, RunEvent.publishConfig,
      RunEvent.setupCall true, RunEvent.servicesRun false, RunEvent.finishCall,
      RunEvent.loggerSync], 1, true),
    ([RunEvent.loggerBuild true, RunEvent.logctxInit true,
      RunEvent.plainLoad true, RunEvent.secretLoad true, RunEvent.publishConfig,
      RunEvent.setupCall true, RunEvent.servicesRun true, RunEvent.stateSet stateRunning,
      RunEvent.panicRecovered, RunEvent.finishCall, RunEvent.loggerSync], 0, true),
    ([RunEvent.loggerBuild true, RunEvent.logctxInit true,
      RunEvent.plainLoad true, RunEvent.secretLoad true, RunEvent.publishConfig,
      RunEvent.setupCall true, RunEvent.servicesRun true, RunEvent.stateSet stateRunning,
      RunEvent.waitCall, RunEvent.finishCall, RunEvent.loggerSync], 0, true) ]

/-- The last state written during a trace, or the starting state when no
write happened: where an observer invoking the self-readiness check at
the end of the replayed trace reads the coordinator state from. -/
def stateAfter (s : String) (t : List RunEvent) : String :=
  (stateSets t).getLast?.getD s

/-- The health-kind entries the observer adds for a list of started
services, in order. -/
def healthAdds : List Service → List (String × CheckerRef)
  | [] => []
  | s :: rest =>
    (match s.IsHealthy with
      | some c => [(s.name, CheckerRef.fn c)]
      | none => []) ++ healthAdds rest

/-- The ready-kind entries the observer adds for a list of started
services, in order. -/
def readyAdds : List Service → List (String × CheckerRef)
  | [] => []
  | s :: rest =>
    (match s.IsReady with
      | some c => [(s.name, CheckerRef.fn c)]
      | none => []) ++ readyAdds rest

/-- A sample user service for concrete evaluations. -/
def sampleService : Service := { name := "http", IsHealthy := none, IsReady := some 1 }

/-- A sample oracle for a fully successful run with one user service. -/
def sampleEnvOk : RunEnv :=
  { loggerBuildOk := true, logctxInitOk := true, systemServerRun := StepOutcome.ok
    plainLoad := StepOutcome.ok, secretLoad := StepOutcome.ok, setup := StepOutcome.ok
    setupServices := [sampleService], servicesRun := StepOutcome.ok, startedCount := 0
    waitPanics := false, configVar := none, secretsVar := none }

/-- A sample oracle for a run whose setup callback panics. -/
def sampleEnvSetupPanics : RunEnv := { sampleEnvOk with setup := StepOutcome.panicked }

/-- A sample oracle for a run in which starting the user services fails. -/
def sampleEnvRunErr : RunEnv := { sampleEnvOk with servicesRun := StepOutcome.err }

/-- A sample oracle for a run whose setup callback returns no services. -/
def sampleEnvNoServices : RunEnv := { sampleEnvOk with setupServices := [] }

/-- A sample application with the system server disabled. -/
def sampleAppDisabled : Application := defaultApplication.WithDisableSystemServer true

/-- The events the body appends after the configuration-load phase is
reached, paired with the body's exit mode: one entry per control path of
the run sequence from that point on. -/
def plainTails : List (List RunEvent × BodyExit) :=
  [ ([], BodyExit.panicked),
    ([RunEvent.plainLoad false], BodyExit.retErr),
    ([RunEvent.plainLoad true], BodyExit.panicked),
    ([RunEvent.plainLoad true, RunEvent.secretLoad false], BodyExit.retErr),
    ([RunEvent.plainLoad true, RunEvent.secretLoad true, RunEvent.publishConfig],
      BodyExit.panicked),
    ([RunEvent.plainLoad true, RunEvent.secretLoad true, RunEvent.publishConfig,
      RunEvent.setupCall false], BodyExit.retErr),
    ([RunEvent.plainLoad true, RunEvent.secretLoad true, RunEvent.publishConfig,
      RunEvent.setupCall true], BodyExit.retOk),
    ([RunEvent.plainLoad true, RunEvent.secretLoad true, RunEvent.publishConfig,
      RunEvent.setupCall true], BodyExit.panicked),
    ([RunEvent.plainLoad true, RunEvent.secretLoad true, RunEvent.publishConfig,
      RunEvent.setupCall true, RunEvent.servicesRun false], BodyExit.retErr),
    ([RunEvent.plainLoad true, RunEvent.secretLoad true, RunEvent.publishConfig,
      RunEvent.setupCall true, RunEvent.servicesRun true, RunEvent.stateSet stateRunning],
      BodyExit.panicked),
    ([RunEvent.plainLoad true, RunEvent.secretLoad true, RunEvent.publishConfig,
      RunEvent.setupCall true, RunEvent.servicesRun true, RunEvent.stateSet stateRunning,
      RunEvent.waitCall], BodyExit.retOk) ]

/-- From the configuration-load phase on, the body appends one of the
enumerated tails to the events accumulated so far and exits as that tail
records. -/
theorem runFromPlain_shape (app : Application) (env : RunEnv) (evs : List RunEvent)
    (reg : Registry) :
    ∃ p ∈ plainTails, (runFromPlain app env evs reg).evs = evs ++ p.1
      ∧ (runFromPlain app env evs reg).exit = p.2 := by
  obtain ⟨lb, li, ss, pl, sl, su, svcs, sr, k, wp, cv, sv⟩ := env
  dsimp only [runFromPlain, runFromSecret, runFromSetup, runFromServices, runWait]
  cases pl with
  | panicked => exact ⟨([], BodyExit.panicked), by decide, by simp, rfl⟩
  | err => exact ⟨([RunEvent.plainLoad false], BodyExit.retErr), by decide, rfl, rfl⟩
  | ok =>
    cases sl with
    | panicked => exact ⟨([RunEvent.plainLoad true], BodyExit.panicked), by decide, by simp, rfl⟩
    | err =>
      exact ⟨([RunEvent.plainLoad true, RunEvent.secretLoad false], BodyExit.retErr),
        by decide, by simp, rfl⟩
    | ok =>
      cases su with
      | panicked =>
        exact ⟨([RunEvent.plainLoad true, RunEvent.secretLoad true, RunEvent.publishConfig],
          BodyExit.panicked), by decide, by simp, rfl⟩
      | err =>
        exact ⟨([RunEvent.plainLoad true, RunEvent.secretLoad true, RunEvent.publishConfig,
          RunEvent.setupCall false], BodyExit.retErr), by decide, by simp, rfl⟩
      | ok =>
        cases svcs with
        | nil =>
          exact ⟨([RunEvent.plainLoad true, RunEvent.secretLoad true, RunEvent.publishConfig,
            RunEvent.setupCall true], BodyExit.retOk), by decide, by simp, rfl⟩
        | cons s0 rest =>
          cases sr with
          | panicked =>
            exact ⟨([RunEvent.plainLoad true, RunEvent.secretLoad true, RunEvent.publishConfig,
              RunEvent.setupCall true], BodyExit.panicked), by decide, by simp, rfl⟩
          | err =>
            exact ⟨([RunEvent.plainLoad true, RunEvent.secretLoad true, RunEvent.publishConfig,
              RunEvent.setupCall true, RunEvent.servicesRun false], BodyExit.retErr),
              by decide, by simp, rfl⟩
          | ok =>
            cases wp with
            | true =>
              exact ⟨([RunEvent.plainLoad true, RunEvent.secretLoad true,
                RunEvent.publishConfig, RunEvent.setupCall true, RunEvent.servicesRun true,
                RunEvent.stateSet stateRunning], BodyExit.panicked), by decide, by simp, rfl⟩
            | false =>
              exact ⟨([RunEvent.plainLoad true, RunEvent.secretLoad true,
                RunEvent.publishConfig, RunEvent.setupCall true, RunEvent.servicesRun true,
                RunEvent.stateSet stateRunning, RunEvent.waitCall], BodyExit.retOk),
                by decide, by simp, rfl⟩

/-- Every run's trace, exit code and system-server flag form one of the
enumerated shapes. -/
theorem run_shape_mem (app : Application) (env : RunEnv) :
    ((Application.Run app env).trace, (Application.Run app env).exitCode,
      app.disableSystemServer) ∈ runShapes := by
  obtain ⟨lb, li, ss, pl, sl, su, svcs, sr, k, wp, cv, sv⟩ := env
  obtain ⟨c0, st, ver, bld, bd, lz, d, envr, cm, sh⟩ := app
  dsimp only [Application.Run, runClose, runBody]
  cases lb with
  | false => cases d <;> (try dsimp only) <;> decide
  | true =>
    cases li with
    | false => cases d <;> (try dsimp only) <;> decide
    | true =>
      cases d with
      | true =>
        dsimp only
        have hall : ∀ p ∈ plainTails,
            (([RunEvent.loggerBuild true, RunEvent.logctxInit true] ++
                ([] ++ p.1) ++ teardownEvents p.2, exitOf p.2, true) :
              List RunEvent × Nat × Bool) ∈ runShapes := by decide
        obtain ⟨p, hp, he, hx⟩ :=
          runFromPlain_shape ⟨c0, st, ver, bld, bd, lz, true, envr, cm, sh⟩
            ⟨true, true, ss, pl, sl, su, svcs, sr, k, wp, cv, sv⟩ [] initialRegistry
        rw [he, hx]
        exact hall p hp
      | false =>
        dsimp only
        cases ss with
        | panicked => dsimp only; decide
        | err => dsimp only; decide
        | ok =>
          dsimp only
          have hall : ∀ p ∈ plainTails,
              (([RunEvent.loggerBuild true, RunEvent.logctxInit true] ++
                  ([RunEvent.systemServerRun true] ++ p.1) ++ teardownEvents p.2,
                exitOf p.2, false) : List RunEvent × Nat × Bool) ∈ runShapes := by decide
          obtain ⟨p, hp, he, hx⟩ :=
            runFromPlain_shape ⟨c0, st, ver, bld, bd, lz, false, envr, cm, sh⟩
              ⟨true, true, StepOutcome.ok, pl, sl, su, svcs, sr, k, wp, cv, sv⟩
              [RunEvent.systemServerRun true]
              (healthcheckObserver.BeforeStart initialRegistry systemServerService)
          rw [he, hx]
          exact hall p hp

/-- Replaying a trace with no state write leaves the state unchanged. -/
theorem stateAfter_of_no_writes (s : String) (t : List RunEvent) (h : stateSets t = []) :
    stateAfter s t = s := by
  simp [stateAfter, h]

/-- State writes distribute over trace concatenation. -/
theorem stateSets_append (a b : List RunEvent) :
    stateSets (a ++ b) = stateSets a ++ stateSets b :=
  List.filterMap_append a b _

/-- The health entries after the observer saw a list of services. -/
theorem observerRunList_health (reg : Registry) (l : List Service) :
    (observerRunList reg l).health = reg.health ++ healthAdds l := by
  induction l generalizing reg with
  | nil => simp [observerRunList, healthAdds]
  | cons s rest ih =>
    obtain ⟨n, hh, hr⟩ := s
    cases hh <;> cases hr <;>
      simp [observerRunList, healthAdds, healthcheckObserver.BeforeStart, addIfHealthCheck,
        addIfReadyCheck, Healthcheck.AddHealthCheck, Healthcheck.AddReadyCheck, ih]

/-- The ready entries after the observer saw a list of services. -/
theorem observerRunList_ready (reg : Registry) (l : List Service) :
    (observerRunList reg l).ready = reg.ready ++ readyAdds l := by
  induction l generalizing reg with
  | nil => simp [observerRunList, readyAdds]
  | cons s rest ih =>
    obtain ⟨n, hh, hr⟩ := s
    cases hh <;> cases hr <;>
      simp [observerRunList, readyAdds, healthcheckObserver.BeforeStart, addIfHealthCheck,
        addIfReadyCheck, Healthcheck.AddHealthCheck, Healthcheck.AddReadyCheck, ih]

/-- Every health entry the observer adds carries the name of one of the
seen services, a service that structurally satisfies `HealthChecker`,
and that service's own check function (never the self-readiness check). -/
theorem healthAdds_mem {l : List Service} {n : String} {c : CheckerRef}
    (h : (n, c) ∈ healthAdds l) :
    ∃ s ∈ l, n = s.name ∧ ∃ k, s.IsHealthy = some k ∧ c = CheckerRef.fn k := by
  induction l with
  | nil => simp [healthAdds] at h
  | cons s rest ih =>
    obtain ⟨nm, hh, hr⟩ := s
    cases hh with
    | none =>
      simp only [healthAdds, List.nil_append] at h
      obtain ⟨s2, hs2, hrest⟩ := ih h
      exact ⟨s2, List.mem_cons_of_mem _ hs2, hrest⟩
    | some k =>
      simp only [healthAdds, List.cons_append, List.nil_append, List.mem_cons] at h
      rcases h with h | h
      · have h12 := Prod.ext_iff.mp h
        exact ⟨⟨nm, some k, hr⟩, List.mem_cons_self _ _, h12.1, k, rfl, h12.2⟩
      · obtain ⟨s2, hs2, hrest⟩ := ih h
        exact ⟨s2, List.mem_cons_of_mem _ hs2, hrest⟩

/-- Every ready entry the observer adds carries the name of one of the
seen services, a service that structurally satisfies `ReadyChecker`, and
that service's own check function (never the self-readiness check). -/
theorem readyAdds_mem {l : List Service} {n : String} {c : CheckerRef}
    (h : (n, c) ∈ readyAdds l) :
    ∃ s ∈ l, n = s.name ∧ ∃ k, s.IsReady = some k ∧ c = CheckerRef.fn k := by
  induction l with
  | nil => simp [readyAdds] at h
  | cons s rest ih =>
    obtain ⟨nm, hh, hr⟩ := s
    cases hr with
    | none =>
      simp only [readyAdds, List.nil_append] at h
      obtain ⟨s2, hs2, hrest⟩ := ih h
      exact ⟨s2, List.mem_cons_of_mem _ hs2, hrest⟩
    | some k =>
      simp only [readyAdds, List.cons_append, List.nil_append, List.mem_cons] at h
      rcases h with h | h
      · have h12 := Prod.ext_iff.mp h
        exact ⟨⟨nm, hh, some k⟩, List.mem_cons_self _ _, h12.1, k, rfl, h12.2⟩
      · obtain ⟨s2, hs2, hrest⟩ := ih h
        exact ⟨s2, List.mem_cons_of_mem _ hs2, hrest⟩

/-- From the configuration-load phase on, the body's registry is the
registry it received, extended by the observer for some of the services
the setup callback returned. -/
theorem runFromPlain_reg (app : Application) (env : RunEnv) (evs : List RunEvent)
    (reg : Registry) :
    ∃ l : List Service, (∀ s ∈ l, s ∈ env.setupServices)
      ∧ (runFromPlain app env evs reg).reg = observerRunList reg l := by
  obtain ⟨lb, li, ss, pl, sl, su, svcs, sr, k, wp, cv, sv⟩ := env
  dsimp only [runFromPlain, runFromSecret, runFromSetup, runFromServices, runWait]
  cases pl with
  | panicked => exact ⟨[], by simp, rfl⟩
  | err => exact ⟨[], by simp, rfl⟩
  | ok =>
    cases sl with
    | panicked => exact ⟨[], by simp, rfl⟩
    | err => exact ⟨[], by simp, rfl⟩
    | ok =>
      cases su with
      | panicked => exact ⟨[], by simp, rfl⟩
      | err => exact ⟨[], by simp, rfl⟩
      | ok =>
        cases svcs with
        | nil => exact ⟨[], by simp, rfl⟩
        | cons s0 rest =>
          cases sr with
          | panicked => exact ⟨(s0 :: rest).take k, fun s hs => List.take_subset _ _ hs, rfl⟩
          | err => exact ⟨(s0 :: rest).take k, fun s hs => List.take_subset _ _ hs, rfl⟩
          | ok =>
            cases wp with
            | true => exact ⟨s0 :: rest, fun s hs => hs, rfl⟩
            | false => exact ⟨s0 :: rest, fun s hs => hs, rfl⟩

/-- Either the run stopped before the registry was constructed (a logger
or logctx failure), or the final registry is the initial registry (the
`"app"` ready check alone) extended by the observer for the system
server and/or some of the user services. -/
theorem run_registry_char (app : Application) (env : RunEnv) :
    ((env.loggerBuildOk = false ∨ env.logctxInitOk = false)
      ∧ (Application.Run app env).registry = { health := [], ready := [] })
    ∨ (∃ l : List Service, (∀ s ∈ l, s = systemServerService ∨ s ∈ env.setupServices)
        ∧ (Application.Run app env).registry = observerRunList initialRegistry l) := by
  obtain ⟨lb, li, ss, pl, sl, su, svcs, sr, k, wp, cv, sv⟩ := env
  obtain ⟨c0, st, ver, bld, bd, lz, d, envr, cm, sh⟩ := app
  dsimp only [Application.Run, runClose, runBody]
  cases lb with
  | false => exact Or.inl ⟨Or.inl rfl, rfl⟩
  | true =>
    cases li with
    | false => exact Or.inl ⟨Or.inr rfl, rfl⟩
    | true =>
      cases d with
      | true =>
        dsimp only
        obtain ⟨l, hl, hre⟩ :=
          runFromPlain_reg ⟨c0, st, ver, bld, bd, lz, true, envr, cm, sh⟩
            ⟨true, true, ss, pl, sl, su, svcs, sr, k, wp, cv, sv⟩ [] initialRegistry
        exact Or.inr ⟨l, fun s hs => Or.inr (hl s hs), hre⟩
      | false =>
        dsimp only
        cases ss with
        | panicked =>
          exact Or.inr ⟨[systemServerService],
            fun s hs => Or.inl (List.mem_singleton.mp hs), rfl⟩
        | err =>
          exact Or.inr ⟨[systemServerService],
            fun s hs => Or.inl (List.mem_singleton.mp hs), rfl⟩
        | ok =>
          dsimp only
          obtain ⟨l, hl, hre⟩ :=
            runFromPlain_reg ⟨c0, st, ver, bld, bd, lz, false, envr, cm, sh⟩
              ⟨true, true, StepOutcome.ok, pl, sl, su, svcs, sr, k, wp, cv, sv⟩
              [RunEvent.systemServerRun true]
              (healthcheckObserver.BeforeStart initialRegistry systemServerService)
          refine Or.inr ⟨systemServerService :: l, ?_, ?_⟩
          · intro s hs
            rcases List.mem_cons.mp hs with h | h
            · exact Or.inl h
            · exact Or.inr (hl s h)
          · rw [hre]
            rfl

/-- C1: in every run, the coordinator state is written at most once, the
only value ever written is `running`, every write happens strictly after
the execution engine's `Run` over the full user service set returned
nil, and when that call never returns nil (a failed or absent service
start) the state is never written, so the trace contains no transition
back and no observer can see `running` before every service start
completed without error. -/
theorem run_running_transition_once (app : Application) (env : RunEnv) :
    stateSetOnlyAfterRunOk (Application.Run app env).trace = true
    ∧ (stateSets (Application.Run app env).trace = []
        ∨ stateSets (Application.Run app env).trace = [stateRunning])
    ∧ (RunEvent.servicesRun true ∉ (Application.Run app env).trace
        → stateSets (Application.Run app env).trace = []) := by
  have h := run_shape_mem app env
  have hall : ∀ p ∈ runShapes,
      stateSetOnlyAfterRunOk p.1 = true
      ∧ (stateSets p.1 = [] ∨ stateSets p.1 = [stateRunning])
      ∧ (RunEvent.servicesRun true ∉ p.1 → stateSets p.1 = []) := by decide
  exact hall _ h

/-- Witness for C1 at a concrete run whose service start fails: the
state is never written. -/
theorem run_running_transition_once_witness :
    stateSets (Application.Run defaultApplication sampleEnvRunErr).trace = [] :=
  (run_running_transition_once defaultApplication sampleEnvRunErr).2.2 (by decide)

/-- C2: the self-readiness check returns the `"app is not running yet"`
error exactly when the coordinator state is not `running`, returns nil
exactly when it is `running`, and has no other possible result. -/
theorem appChecker_Check_results (s : String) :
    (appChecker.Check s = none ↔ s = stateRunning)
    ∧ (appChecker.Check s = some ErrAppNotRunningYet ↔ s ≠ stateRunning)
    ∧ (appChecker.Check s = none ∨ appChecker.Check s = some ErrAppNotRunningYet) := by
  by_cases h : s = stateRunning <;> simp [appChecker.Check, h]

/-- Witness for C2 at the two reachable states. -/
theorem appChecker_Check_results_witness :
    appChecker.Check stateRunning = none
    ∧ appChecker.Check "" = some ErrAppNotRunningYet :=
  ⟨(appChecker_Check_results stateRunning).1.mpr rfl,
    (appChecker_Check_results "").2.1.mpr (by decide)⟩

/-- C3: `Application.Shutdown` does append each callback to the hook
list in registration order, but the teardown of `Application.Run` never
invokes any registered hook: even a clean full run (which does reach the
deferred teardown, as the `Finish` call shows) invokes none of them. -/
theorem shutdown_hooks_never_invoked :
    (Application.Shutdown (Application.Shutdown defaultApplication 1) 2).shutdownHandler = [1, 2]
    ∧ (Application.Run (Application.Shutdown (Application.Shutdown defaultApplication 1) 2)
        sampleEnvOk).hooksInvoked = []
    ∧ RunEvent.finishCall ∈ (Application.Run
        (Application.Shutdown (Application.Shutdown defaultApplication 1) 2) sampleEnvOk).trace
    ∧ (Application.Run (Application.Shutdown (Application.Shutdown defaultApplication 1) 2)
        sampleEnvOk).exitCode = 0 := by
  decide

/-- C4: a panic raised in the setup callback is recovered exactly once,
`Runner.Finish` still runs and the logger is flushed, but the closure's
unnamed error result is nil after the recovery, so `os.Exit(1)` is never
reached and the process exits cleanly with code 0 instead of the
non-zero exit the specification requires. -/
theorem run_panic_recovered_clean_exit :
    (Application.Run defaultApplication sampleEnvSetupPanics).trace.count
        RunEvent.panicRecovered = 1
    ∧ RunEvent.finishCall ∈ (Application.Run defaultApplication sampleEnvSetupPanics).trace
    ∧ RunEvent.loggerSync ∈ (Application.Run defaultApplication sampleEnvSetupPanics).trace
    ∧ (Application.Run defaultApplication sampleEnvSetupPanics).exitCode = 0 := by
  decide

/-- C6: on `before_start` the observer registers a health check under
the service's name exactly when the service structurally satisfies
`HealthChecker`, registers a ready check under the service's name
exactly when it structurally satisfies `ReadyChecker` (both when it
satisfies both), and every other lifecycle event leaves the registry
unchanged. -/
theorem observer_registers_iff_capability (reg : Registry) (svc : Service) :
    (healthcheckObserver.handle reg (LifecycleEvent.beforeStart svc)).health
        = reg.health ++ (match svc.IsHealthy with
            | some c => [(svc.name, CheckerRef.fn c)]
            | none => [])
    ∧ (healthcheckObserver.handle reg (LifecycleEvent.beforeStart svc)).ready
        = reg.ready ++ (match svc.IsReady with
            | some c => [(svc.name, CheckerRef.fn c)]
            | none => [])
    ∧ (∀ s2 e, healthcheckObserver.handle reg (LifecycleEvent.afterStart s2 e) = reg)
    ∧ (∀ s2, healthcheckObserver.handle reg (LifecycleEvent.beforeStop s2) = reg)
    ∧ (∀ s2 e, healthcheckObserver.handle reg (LifecycleEvent.afterStop s2 e) = reg)
    ∧ (∀ c, healthcheckObserver.handle reg (LifecycleEvent.beforeLoad c) = reg)
    ∧ (∀ c e, healthcheckObserver.handle reg (LifecycleEvent.afterLoad c e) = reg)
    ∧ (∀ sig, healthcheckObserver.handle reg (LifecycleEvent.signalReceived sig) = reg) := by
  obtain ⟨n, hh, hr⟩ := svc
  refine ⟨?_, ?_, fun _ _ => rfl, fun _ => rfl, fun _ _ => rfl, fun _ => rfl,
    fun _ _ => rfl, fun _ => rfl⟩ <;>
    cases hh <;> cases hr <;>
      simp [healthcheckObserver.handle, healthcheckObserver.BeforeStart, addIfHealthCheck,
        addIfReadyCheck, Healthcheck.AddHealthCheck, Healthcheck.AddReadyCheck]

/-- C8: the process exits with code 1 exactly when some phase of the run
reported a fatal error (logger construction, logctx initialisation,
system-server start, either configuration-load phase, the setup
callback, or the user service start), and exits with code 0 exactly when
no phase did. -/
theorem run_exit_code_iff (app : Application) (env : RunEnv) :
    ((Application.Run app env).exitCode = 1
      ↔ (Application.Run app env).trace.any isFailure = true)
    ∧ ((Application.Run app env).exitCode = 0
      ↔ (Application.Run app env).trace.any isFailure = false) := by
  have h := run_shape_mem app env
  have hall : ∀ p ∈ runShapes,
      (p.2.1 = 1 ↔ p.1.any isFailure = true)
      ∧ (p.2.1 = 0 ↔ p.1.any isFailure = false) := by decide
  exact hall _ h

/-- C9: every builder method only replaces its designated field(s) of
the receiver and leaves every other field unchanged (`Shutdown` appends
one handler after all previously registered ones), returning the updated
application so that calls chain. -/
theorem builder_methods_pure_mutation (app : Application) (ctx : Nat) (v b bd2 : String)
    (opts : List Nat) (e : String) (dis : Bool) (h : Nat) :
    app.WithContext ctx = { app with context := ctx }
    ∧ app.WithVersion v b bd2 = { app with version := v, build := b, buildDate := bd2 }
    ∧ app.WithLoggerZapOptions opts = { app with loggerZapOptions := opts }
    ∧ app.WithEnvironment e = { app with environment := e }
    ∧ app.WithDisableSystemServer dis = { app with disableSystemServer := dis }
    ∧ app.Shutdown h = { app with shutdownHandler := app.shutdownHandler ++ [h] }
    ∧ (app.Shutdown h).shutdownHandler = app.shutdownHandler ++ [h]
    ∧ ((app.WithVersion v b bd2).WithEnvironment e).version = v
    ∧ ((app.WithEnvironment e).WithContext ctx).environment = e :=
  ⟨rfl, rfl, rfl, rfl, rfl, rfl, rfl, rfl, rfl⟩

/-- C5 counterexample: with the status server enabled and a setup
callback returning no services, the setup call completes, yet the
self-readiness check still answers `"app is not running yet"` at the end
of the run - `Run` returned early on the empty service set without ever
writing the `running` state, so the application never becomes ready,
contrary to the claim that it is ready immediately after setup
completes. -/
theorem run_no_services_not_ready_cex :
    defaultApplication.disableSystemServer = false
    ∧ RunEvent.setupCall true ∈ (Application.Run defaultApplication sampleEnvNoServices).trace
    ∧ appChecker.Check (Application.Run defaultApplication sampleEnvNoServices).finalApp.state
        = some ErrAppNotRunningYet := by
  decide

/-- C5 (amended): when the setup callback returns an empty service set
and the status server is enabled, in a run whose earlier phases all
succeed the readiness aggregation holds exactly one check, named
`"app"`; the coordinator state is never written, so that check reports
not-ready at every point of the run - before setup completes and also
after it - because `Run` returns nil immediately on an empty service set
without transitioning to `running`, and the process exits cleanly with
code 0. -/
theorem run_no_services_never_ready (app : Application) (env : RunEnv)
    (hd : app.disableSystemServer = false) (hst : app.state ≠ stateRunning)
    (hlb : env.loggerBuildOk = true) (hli : env.logctxInitOk = true)
    (hss : env.systemServerRun = StepOutcome.ok) (hpl : env.plainLoad = StepOutcome.ok)
    (hsl : env.secretLoad = StepOutcome.ok) (hsu : env.setup = StepOutcome.ok)
    (hsv : env.setupServices = []) :
    (Application.Run app env).registry.ready = [("app", CheckerRef.app)]
    ∧ RunEvent.setupCall true ∈ (Application.Run app env).trace
    ∧ stateSets (Application.Run app env).trace = []
    ∧ (∀ pre post, (Application.Run app env).trace = pre ++ post →
        appChecker.Check (stateAfter app.state pre) = some ErrAppNotRunningYet)
    ∧ (Application.Run app env).exitCode = 0 := by
  obtain ⟨lb, li, ss, pl, sl, su, svcs, sr, k, wp, cv, sv⟩ := env
  obtain ⟨c0, st, ver, bld, bd, lz, d, envr, cm, sh⟩ := app
  dsimp only at hd hst hlb hli hss hpl hsl hsu hsv ⊢
  subst hd hlb hli hss hpl hsl hsu hsv
  dsimp only [Application.Run, runClose, runBody, runFromPlain, runFromSecret, runFromSetup,
    runFromServices, teardownEvents, exitOf, healthcheckObserver.BeforeStart, addIfHealthCheck,
    addIfReadyCheck, systemServerService, initialRegistry]
  refine ⟨rfl, by decide, by decide, ?_, rfl⟩
  intro pre post hsplit
  have h0 : stateSets (pre ++ post) = [] := by
    rw [← hsplit]; decide
  rw [stateSets_append] at h0
  have hpre : stateSets pre = [] := (List.append_eq_nil.mp h0).1
  rw [stateAfter_of_no_writes st pre hpre]
  simp [appChecker.Check, hst]

/-- Witness for the amended C5 at a concrete zero-service run. -/
theorem run_no_services_never_ready_witness :
    (Application.Run defaultApplication sampleEnvNoServices).registry.ready
        = [("app", CheckerRef.app)]
    ∧ appChecker.Check (stateAfter defaultApplication.state
        (Application.Run defaultApplication sampleEnvNoServices).trace)
        = some ErrAppNotRunningYet := by
  have h := run_no_services_never_ready defaultApplication sampleEnvNoServices rfl (by decide)
    rfl rfl rfl rfl rfl rfl rfl
  exact ⟨h.1, h.2.2.2.1 _ [] (by simp)⟩

/-- C7: the system server is enabled by default and its start is skipped
exactly when disabled; when enabled, its start precedes every
configuration-load, setup and user-service-start event; the plain
configuration phase succeeds before any secret-load event occurs; the
merged configuration manager is published before the setup callback is
invoked; user services are started only after the setup callback
succeeded; every phase failure yields exit code 1 and is followed only
by teardown events. -/
theorem run_sequence_order (app : Application) (env : RunEnv) :
    defaultApplication.disableSystemServer = false
    ∧ (app.disableSystemServer = true →
        (Application.Run app env).trace.any isSystemServerEvent = false)
    ∧ (app.disableSystemServer = false →
        firstPrecedes isSystemServerEvent isConfigOrUserStart
          (Application.Run app env).trace = true)
    ∧ firstPrecedes isPlainLoadOk isSecretLoadEvent (Application.Run app env).trace = true
    ∧ firstPrecedes isPublishEvent isSetupEvent (Application.Run app env).trace = true
    ∧ firstPrecedes isSetupOk isServicesRunEvent (Application.Run app env).trace = true
    ∧ ((Application.Run app env).trace.any isFailure = true
        → (Application.Run app env).exitCode = 1)
    ∧ afterFailureOnlyTeardown (Application.Run app env).trace = true := by
  have h := run_shape_mem app env
  have hall : ∀ p ∈ runShapes,
      (p.2.2 = true → p.1.any isSystemServerEvent = false)
      ∧ (p.2.2 = false → firstPrecedes isSystemServerEvent isConfigOrUserStart p.1 = true)
      ∧ firstPrecedes isPlainLoadOk isSecretLoadEvent p.1 = true
      ∧ firstPrecedes isPublishEvent isSetupEvent p.1 = true
      ∧ firstPrecedes isSetupOk isServicesRunEvent p.1 = true
      ∧ (p.1.any isFailure = true → p.2.1 = 1)
      ∧ afterFailureOnlyTeardown p.1 = true := by decide
  exact ⟨rfl, hall _ h⟩

/-- Witness for C7: a run with the system server disabled never starts
it. -/
theorem run_sequence_order_witness :
    (Application.Run sampleAppDisabled sampleEnvOk).trace.any isSystemServerEvent = false :=
  (run_sequence_order sampleAppDisabled sampleEnvOk).2.1 rfl

/-- C10: once the registry exists, the readiness aggregate always
contains the `("app", self-check)` entry; the self-readiness check never
appears under the health kind nor under any name other than `"app"`;
and when no user service is itself named `"app"` the health aggregate
contains no `"app"` entry at all. -/
theorem selfcheck_ready_only (app : Application) (env : RunEnv)
    (hn : ∀ svc ∈ env.setupServices, svc.name ≠ "app")
    (hlb : env.loggerBuildOk = true) (hli : env.logctxInitOk = true) :
    ("app", CheckerRef.app) ∈ (Application.Run app env).registry.ready
    ∧ (∀ c, ("app", c) ∉ (Application.Run app env).registry.health)
    ∧ (∀ nm, (nm, CheckerRef.app) ∉ (Application.Run app env).registry.health)
    ∧ (∀ nm, (nm, CheckerRef.app) ∈ (Application.Run app env).registry.ready
        → nm = "app") := by
  rcases run_registry_char app env with ⟨hor, _⟩ | ⟨l, hl, hreg⟩
  · rcases hor with h | h
    · rw [hlb] at h; cases h
    · rw [hli] at h; cases h
  · rw [hreg]
    have hready := observerRunList_ready initialRegistry l
    have hhealth := observerRunList_health initialRegistry l
    refine ⟨?_, ?_, ?_, ?_⟩
    · rw [hready]
      exact List.mem_append_left _ (by decide)
    · intro c hc
      rw [hhealth] at hc
      simp only [initialRegistry, List.nil_append] at hc
      obtain ⟨s, hs, hname, _⟩ := healthAdds_mem hc
      rcases hl s hs with h | h
      · rw [h] at hname
        exact absurd hname (by decide)
      · exact hn s h hname.symm
    · intro nm hc
      rw [hhealth] at hc
      simp only [initialRegistry, List.nil_append] at hc
      obtain ⟨s, _, _, k, _, habs⟩ := healthAdds_mem hc
      exact CheckerRef.noConfusion habs
    · intro nm hmem
      rw [hready] at hmem
      rcases List.mem_append.mp hmem with h | h
      · exact (Prod.ext_iff.mp (List.mem_singleton.mp h)).1
      · obtain ⟨s, _, _, k, _, habs⟩ := readyAdds_mem h
        exact CheckerRef.noConfusion habs

/-- Witness for C10 at a concrete full run with one user service. -/
theorem selfcheck_ready_only_witness :
    ("app", CheckerRef.app) ∈ (Application.Run defaultApplication sampleEnvOk).registry.ready
    ∧ ("app", CheckerRef.fn 0)
        ∉ (Application.Run defaultApplication sampleEnvOk).registry.health := by
  have h := selfcheck_ready_only defaultApplication sampleEnvOk (by decide) rfl rfl
  exact ⟨h.1, h.2.1 (CheckerRef.fn 0)⟩

/-- Witness for C8 at a concrete fully successful run: no phase fails
and the process exits with code 0. -/
theorem run_exit_code_iff_witness :
    (Application.Run defaultApplication sampleEnvOk).exitCode = 0 :=
  (run_exit_code_iff defaultApplication sampleEnvOk).2.mpr (by decide)
